import Mathlib

/-!
Shallow embedding of the clinic-scheduling application (healthcare-manager).

The embedding covers the data model (appointments with patients and doctors),
the appointment-conflict checker of the create and edit forms, the doctor
dashboard queue logic, the nurse dashboard list filtering, the cancel and
status-transition handlers, and the reschedule webhook request builder.

Times and dates are the strings stored by the application.  The JavaScript
helper that converts a time string to minutes since midnight is embedded as
a partial function into Option Nat: the value none models the JavaScript
NaN that Number produces on a malformed component (and every comparison
with NaN is false, which the comparison function below reproduces).
-/

/-- Appointment status, from src/frontend/src/types/index.ts. -/
inductive AppointmentStatus where
  | scheduled
  | in_consultation
  | completed
  | cancelled
  | no_show
deriving DecidableEq, Repr

/-- Patient record, from src/frontend/src/types/index.ts.  The last name is
optional here because the reschedule handler guards it with a default. -/
structure Patient where
  id : Nat
  first_name : String
  last_name : Option String
  phone : String
  age : Option Nat
deriving DecidableEq, Repr

/-- Doctor record, from src/frontend/src/types/index.ts. -/
structure Doctor where
  id : Nat
  full_name : String
  specialty : Option String
deriving DecidableEq, Repr

/-- Appointment record, from src/frontend/src/types/index.ts.  The patient
and doctor fields model the joined rows that some queries select. -/
structure Appointment where
  id : Nat
  patient_id : Nat
  doctor_id : Nat
  appointment_date : String
  appointment_time : String
  complaint : Option String
  status : AppointmentStatus
  patient : Option Patient
  doctor : Option Doctor
deriving DecidableEq, Repr

/-- Splitting of a character list at a separator, modelling the JavaScript
String.split method used by timeToMinutes: "a:b:c".split(":") gives the
three pieces, and an empty input gives one empty piece. -/
def splitOnChar (c : Char) : List Char → List (List Char)
  | [] => [[]]
  | x :: xs =>
    let rest := splitOnChar c xs
    if x = c then [] :: rest
    else
      match rest with
      | [] => [[x]]
      | r :: rs => (x :: r) :: rs

/-- Value of a decimal digit character, none on any other character. -/
def digitVal (c : Char) : Option Nat :=
  if c.isDigit then some (c.toNat - 48) else none

/-- JavaScript Number applied to a string of decimal digits: the empty
string gives 0, a digit string gives its value, and any other character
gives NaN, modelled as none.  (The further JavaScript Number syntax such
as signs, blanks or decimals never occurs in the stored time strings.) -/
def jsNumberNat (cs : List Char) : Option Nat :=
  cs.foldl
    (fun acc c =>
      match acc, digitVal c with
      | some n, some d => some (n * 10 + d)
      | _, _ => none)
    (some 0)

/-- Conversion of a stored time string to minutes since midnight, from the
timeToMinutes helper inside checkTimeConflict (CreateAppointmentForm.tsx
and EditAppointmentForm.tsx): split on the colon, read the first two
pieces as numbers, and combine them as hours * 60 + minutes.  none models
a NaN result. -/
def timeToMinutes (time : String) : Option Nat :=
  match splitOnChar ':' time.data with
  | h :: m :: _ =>
    match jsNumberNat h, jsNumberNat m with
    | some hv, some mv => some (hv * 60 + mv)
    | _, _ => none
  | _ => none

/-- The comparison inside the conflict loop: the absolute difference of the
two times is strictly below 30 minutes.  When either side is NaN (none)
the JavaScript comparison NaN < 30 is false, so no conflict is reported. -/
def timeDiffLt30 : Option Nat → Option Nat → Bool
  | some a, some b => ((a : Int) - (b : Int)).natAbs < 30
  | _, _ => false

/-- Status filter of the conflict queries: both forms restrict the fetched
appointments to status scheduled or in_consultation. -/
def isActiveStatus (s : AppointmentStatus) : Bool :=
  s == .scheduled || s == .in_consultation

/-- Row filter of the conflict query in CreateAppointmentForm.tsx: same
doctor, same date, status scheduled or in_consultation. -/
def matchesConflictQuery (doctorId : Nat) (appointmentDate : String) (apt : Appointment) : Bool :=
  apt.doctor_id == doctorId && apt.appointment_date == appointmentDate && isActiveStatus apt.status

/-- Conflict checker of CreateAppointmentForm.tsx (checkTimeConflict):
fetch the appointments of the doctor on the date with an active status,
return false when none exist, and otherwise report a conflict exactly when
some fetched time is strictly within 30 minutes of the candidate time. -/
def checkTimeConflict (store : List Appointment) (doctorId : Nat)
    (appointmentDate appointmentTime : String) : Bool :=
  let existingAppointments := store.filter (matchesConflictQuery doctorId appointmentDate)
  if existingAppointments.isEmpty then false
  else
    let newTimeInMinutes := timeToMinutes appointmentTime
    existingAppointments.any fun apt =>
      timeDiffLt30 newTimeInMinutes (timeToMinutes apt.appointment_time)

/-- Conflict checker of EditAppointmentForm.tsx (checkTimeConflict): the
same check, with the appointment being edited excluded from the fetched
candidates by its id. -/
def checkTimeConflictEdit (store : List Appointment) (doctorId : Nat)
    (appointmentDate appointmentTime : String) (currentAppointmentId : Nat) : Bool :=
  let existingAppointments := store.filter fun apt =>
    matchesConflictQuery doctorId appointmentDate apt && !(apt.id == currentAppointmentId)
  if existingAppointments.isEmpty then false
  else
    let newTimeInMinutes := timeToMinutes appointmentTime
    existingAppointments.any fun apt =>
      timeDiffLt30 newTimeInMinutes (timeToMinutes apt.appointment_time)

/-- Lexicographic order on character lists, modelling the text ordering the
data store applies when a query orders rows by a date or time column. -/
def listCharLe : List Char → List Char → Bool
  | [], _ => true
  | _ :: _, [] => false
  | a :: as, b :: bs =>
    if a.toNat < b.toNat then true
    else if b.toNat < a.toNat then false
    else listCharLe as bs

/-- Insertion of an element into a list sorted by a boolean comparison. -/
def insertSorted {α : Type} (le : α → α → Bool) (a : α) : List α → List α
  | [] => [a]
  | b :: bs => if le a b then a :: b :: bs else b :: insertSorted le a bs

/-- Sorting by a boolean comparison, modelling the order clause of the data
store queries. -/
def orderBy {α : Type} (le : α → α → Bool) : List α → List α
  | [] => []
  | a :: as => insertSorted le a (orderBy le as)

/-- Time ordering of two appointments, by the stored time string. -/
def timeLe (a b : Appointment) : Bool :=
  listCharLe a.appointment_time.data b.appointment_time.data

/-- Status filter of the doctor dashboard fetch: scheduled, in_consultation
or completed (cancelled and no_show rows are not fetched). -/
def doctorDayStatus (s : AppointmentStatus) : Bool :=
  s == .scheduled || s == .in_consultation || s == .completed

/-- Appointment fetch of DoctorDashboard.tsx (fetchAppointments): the rows
of the signed-in doctor on the selected date whose status passes the
filter, ordered by time ascending. -/
def fetchDoctorAppointments (store : List Appointment) (doctorId : Nat)
    (searchDate : String) : List Appointment :=
  orderBy timeLe (store.filter fun apt =>
    apt.doctor_id == doctorId && apt.appointment_date == searchDate && doctorDayStatus apt.status)

/-- Derived state of the doctor dashboard after organizeAppointments runs. -/
structure DashboardState where
  currentAppointment : Option Appointment
  nextAppointments : List Appointment
  completedCount : Nat
deriving DecidableEq, Repr

/-- Queue organisation of DoctorDashboard.tsx (organizeAppointments): the
current patient is the first fetched row with status in_consultation, the
next patients are the first five fetched rows with status scheduled, and
the completed count counts the fetched completed rows. -/
def organizeAppointments (appointments : List Appointment) : DashboardState :=
  { currentAppointment := appointments.find? fun apt => apt.status == .in_consultation
    nextAppointments := (appointments.filter fun apt => apt.status == .scheduled).take 5
    completedCount := (appointments.filter fun apt => apt.status == .completed).length }

/-- Disabled flag of the Start Consultation button in DoctorDashboard.tsx:
the button of every listed next patient carries the same flag, true exactly
when a current appointment exists. -/
def startButtonDisabled (appointments : List Appointment) : Bool :=
  (organizeAppointments appointments).currentAppointment.isSome

/-- Phone masking of DoctorDashboard.tsx (maskPhone): an empty or short
string is returned unchanged, otherwise the last four characters are kept
behind a fixed mask.  String length in JavaScript is modelled by the
character count of the string. -/
def maskPhone (phone : String) : String :=
  if phone.data.isEmpty || phone.data.length < 4 then phone
  else "***-***-" ++ String.mk (phone.data.drop (phone.data.length - 4))

/-- Status update issued by the transition handlers: every stored row whose
id matches is rewritten with the new status, all other fields unchanged. -/
def updateStatus (store : List Appointment) (id : Nat)
    (newStatus : AppointmentStatus) : List Appointment :=
  store.map fun apt => if apt.id == id then { apt with status := newStatus } else apt

/-- Start handler of DoctorDashboard.tsx (handleStartConsultation). -/
def handleStartConsultation (store : List Appointment) (appointmentId : Nat) : List Appointment :=
  updateStatus store appointmentId .in_consultation

/-- Complete handler of DoctorDashboard.tsx (handleCompleteConsultation):
a no-op without a current appointment, otherwise the current appointment
is set to completed. -/
def handleCompleteConsultation (store : List Appointment) :
    Option Appointment → List Appointment
  | none => store
  | some current => updateStatus store current.id .completed

/-- No-show handler of DoctorDashboard.tsx (handleMarkNoShow). -/
def handleMarkNoShow (store : List Appointment) (appointmentId : Nat) : List Appointment :=
  updateStatus store appointmentId .no_show

/-- Cancel handler of AppointmentDetailsModal (handleCancel): a status-only
update to cancelled, no delete. -/
def handleCancel (store : List Appointment) (appointmentId : Nat) : List Appointment :=
  updateStatus store appointmentId .cancelled

/-- Edit write of EditAppointmentForm.tsx: the row with the given id gets
the selected doctor, date, time and status; id and the other fields stay. -/
def applyEdit (store : List Appointment) (id doctorId : Nat)
    (date time : String) (st : AppointmentStatus) : List Appointment :=
  store.map fun apt =>
    if apt.id == id then
      { apt with doctor_id := doctorId, appointment_date := date,
                 appointment_time := time, status := st }
    else apt

/-- Date-then-time ordering of the nurse dashboard fetch. -/
def dateTimeLe (a b : Appointment) : Bool :=
  if a.appointment_date.data = b.appointment_date.data then timeLe a b
  else listCharLe a.appointment_date.data b.appointment_date.data

/-- Appointment fetch of NurseDashboard.tsx (fetchAppointments): every
stored row, ordered by date then time, with no status condition. -/
def fetchNurseAppointments (store : List Appointment) : List Appointment :=
  orderBy dateTimeLe store

/-- ASCII lower casing of a character, as the JavaScript toLowerCase call
behaves on the name strings involved. -/
def jsCharToLower (c : Char) : Char :=
  if 65 ≤ c.toNat && c.toNat ≤ 90 then Char.ofNat (c.toNat + 32) else c

/-- Lower casing of a character list. -/
def toLowerChars (cs : List Char) : List Char := cs.map jsCharToLower

/-- Substring test, modelling the JavaScript String.includes call. -/
def containsSub (pat : List Char) : List Char → Bool
  | [] => pat.isEmpty
  | c :: rest => pat.isPrefixOf (c :: rest) || containsSub pat rest

/-- Display name the nurse search matches against: first and last patient
name joined by a space, with the JavaScript text "undefined" appearing for
a missing record or name, as string interpolation produces there. -/
def patientSearchName (apt : Appointment) : List Char :=
  match apt.patient with
  | some p =>
    p.first_name.data ++ [' '] ++
      (match p.last_name with
       | some l => l.data
       | none => "undefined".data)
  | none => "undefined undefined".data

/-- Search predicate of NurseDashboard.tsx (inside filterAppointments):
case-insensitive substring match of the query against the patient name or
against the doctor name when a doctor row is joined. -/
def searchMatches (searchQuery : String) (apt : Appointment) : Bool :=
  let q := toLowerChars searchQuery.data
  containsSub q (toLowerChars (patientSearchName apt)) ||
    (match apt.doctor with
     | some d => containsSub q (toLowerChars d.full_name.data)
     | none => false)

/-- List filtering of NurseDashboard.tsx (filterAppointments): an optional
doctor filter (none models the all-doctors choice), an equality filter on
the selected date, and the search filter when the query is nonempty.  No
condition mentions the appointment status. -/
def filterAppointments (appointments : List Appointment) (selectedDoctor : Option Nat)
    (selectedDate : String) (searchQuery : String) : List Appointment :=
  let byDoctor :=
    match selectedDoctor with
    | none => appointments
    | some d => appointments.filter fun apt => apt.doctor_id == d
  let byDate := byDoctor.filter fun apt => apt.appointment_date == selectedDate
  if searchQuery.data.isEmpty then byDate
  else byDate.filter (searchMatches searchQuery)

/-- Payload of the reschedule webhook, from
src/frontend/src/types/index.ts (RescheduleWebhookPayload): exactly the
five fields the handler sends. -/
structure ReschedulePayload where
  doctor_name : String
  patient_first_name : String
  patient_last_name : String
  appointment_date : String
  appointment_time : String
deriving DecidableEq, Repr

/-- An outbound HTTP request issued by the application. -/
structure WebhookRequest where
  url : String
  method : String
  payload : ReschedulePayload
deriving DecidableEq, Repr

/-- The fixed external endpoint of the reschedule webhook. -/
def rescheduleWebhookUrl : String := "https://n8n.maxgrow.pro/webhook/emergency"

/-- The ok flag of a fetch response: status between 200 and 299. -/
def responseOk (status : Nat) : Bool := 200 ≤ status && status ≤ 299

/-- Reschedule handler of AppointmentDetailsModal (handleRequestReschedule).
Without a joined patient and doctor no request is sent and the operation
fails.  Otherwise one POST with the five-field payload goes to the fixed
endpoint; the response argument carries the status, or none when the fetch
call itself throws, and the operation succeeds exactly on an ok response.
The result pairs the requests sent with the success flag. -/
def handleRequestReschedule (apt : Appointment) (response : Option Nat) :
    List WebhookRequest × Bool :=
  match apt.patient, apt.doctor with
  | some p, some d =>
    let payload : ReschedulePayload :=
      { doctor_name := d.full_name
        patient_first_name := p.first_name
        patient_last_name := p.last_name.getD ""
        appointment_date := apt.appointment_date
        appointment_time := apt.appointment_time }
    ([⟨rescheduleWebhookUrl, "POST", payload⟩],
      match response with
      | some status => responseOk status
      | none => false)
  | _, _ => ([], false)

/-- Stores of appointments reachable through the application writes.  The
create step appends a scheduled row after the create-form conflict check
passes, with a store-generated fresh id.  The edit step rewrites a row
after the edit-form conflict check passes.  The start step is offered by
the doctor dashboard only on rows listed as scheduled; complete, cancel
and no-show write their respective terminal status. -/
inductive Reachable : List Appointment → Prop where
  | empty : Reachable []
  | create (store : List Appointment) (apt : Appointment) :
      Reachable store →
      (∀ b ∈ store, b.id ≠ apt.id) →
      apt.status = .scheduled →
      checkTimeConflict store apt.doctor_id apt.appointment_date apt.appointment_time = false →
      Reachable (store ++ [apt])
  | edit (store : List Appointment) (id doctorId : Nat) (date time : String)
      (st : AppointmentStatus) :
      Reachable store →
      checkTimeConflictEdit store doctorId date time id = false →
      Reachable (applyEdit store id doctorId date time st)
  | start (store : List Appointment) (id : Nat) :
      Reachable store →
      (∀ a ∈ store, a.id = id → a.status = .scheduled) →
      Reachable (handleStartConsultation store id)
  | complete (store : List Appointment) (id : Nat) :
      Reachable store →
      Reachable (updateStatus store id .completed)
  | cancel (store : List Appointment) (id : Nat) :
      Reachable store →
      Reachable (handleCancel store id)
  | noShow (store : List Appointment) (id : Nat) :
      Reachable store →
      Reachable (handleMarkNoShow store id)

/-- Status test of the invariant claimed in the specification: neither
cancelled nor no_show. -/
def notClosedStatus (s : AppointmentStatus) : Bool :=
  !(s == .cancelled) && !(s == .no_show)

/-- Separation property over a store: any two rows with distinct ids for
the same doctor on the same date whose statuses both pass the given test
lie at least 30 minutes apart (in the sense of the conflict comparison). -/
def pairwiseApart (P : AppointmentStatus → Bool) (store : List Appointment) : Prop :=
  ∀ a ∈ store, ∀ b ∈ store, a.id ≠ b.id → a.doctor_id = b.doctor_id →
    a.appointment_date = b.appointment_date →
    P a.status = true → P b.status = true →
    timeDiffLt30 (timeToMinutes a.appointment_time) (timeToMinutes b.appointment_time) = false

/-- A scheduled appointment of doctor 7 at 09:00. -/
def exApt0900 : Appointment :=
  { id := 1, patient_id := 1, doctor_id := 7, appointment_date := "2025-01-06",
    appointment_time := "09:00", complaint := none, status := .scheduled,
    patient := none, doctor := none }

/-- A scheduled appointment of doctor 7 at 09:20. -/
def exApt0920 : Appointment :=
  { id := 2, patient_id := 2, doctor_id := 7, appointment_date := "2025-01-06",
    appointment_time := "09:20", complaint := none, status := .scheduled,
    patient := none, doctor := none }

/-- The day of doctor 7 in the example of the specification: appointments
at 09:00 and 09:20. -/
def exStoreC3 : List Appointment := [exApt0900, exApt0920]

/-- A lone appointment used to exercise the self-exclusion of the edit
conflict check. -/
def exSoloApt : Appointment :=
  { id := 5, patient_id := 1, doctor_id := 3, appointment_date := "2025-02-03",
    appointment_time := "10:00", complaint := none, status := .scheduled,
    patient := none, doctor := none }

/-- Two scheduled appointments of the same day queue, 09:00 and 09:30. -/
def exQueueA : Appointment :=
  { id := 11, patient_id := 1, doctor_id := 7, appointment_date := "2025-01-06",
    appointment_time := "09:00", complaint := none, status := .scheduled,
    patient := none, doctor := none }

/-- The later of the two queued appointments. -/
def exQueueB : Appointment :=
  { id := 12, patient_id := 2, doctor_id := 7, appointment_date := "2025-01-06",
    appointment_time := "09:30", complaint := none, status := .scheduled,
    patient := none, doctor := none }

/-- A fetched day queue with two scheduled appointments and none in
consultation. -/
def exQueue : List Appointment := [exQueueA, exQueueB]

/-- First appointment of the C2 scenario: doctor 7 at 09:00, created
while the store is empty. -/
def exC2Apt1 : Appointment :=
  { id := 1, patient_id := 1, doctor_id := 7, appointment_date := "2025-01-06",
    appointment_time := "09:00", complaint := none, status := .scheduled,
    patient := none, doctor := none }

/-- Second appointment of the C2 scenario: doctor 7 at 09:10, created
after the first consultation completed. -/
def exC2Apt2 : Appointment :=
  { id := 2, patient_id := 2, doctor_id := 7, appointment_date := "2025-01-06",
    appointment_time := "09:10", complaint := none, status := .scheduled,
    patient := none, doctor := none }

/-- C2 scenario, step 1: the first appointment is created. -/
def exC2Store1 : List Appointment := [] ++ [exC2Apt1]

/-- C2 scenario, step 2: its consultation starts. -/
def exC2Store2 : List Appointment := handleStartConsultation exC2Store1 1

/-- C2 scenario, step 3: its consultation completes. -/
def exC2Store3 : List Appointment := updateStatus exC2Store2 1 .completed

/-- C2 scenario, step 4: a second appointment ten minutes after the
completed one passes the conflict check, which only sees scheduled and
in-consultation rows, and is created. -/
def exC2Store : List Appointment := exC2Store3 ++ [exC2Apt2]

/-- The appointment completed in the C6 witness scenario. -/
def exC6Apt : Appointment :=
  { id := 21, patient_id := 1, doctor_id := 7, appointment_date := "2025-01-06",
    appointment_time := "09:00", complaint := none, status := .in_consultation,
    patient := none, doctor := none }

/-- The same appointment after completion. -/
def exC6Done : Appointment :=
  { id := 21, patient_id := 1, doctor_id := 7, appointment_date := "2025-01-06",
    appointment_time := "09:00", complaint := none, status := .completed,
    patient := none, doctor := none }

/-- The appointment cancelled in the C7 scenario. -/
def exC7Apt : Appointment :=
  { id := 31, patient_id := 1, doctor_id := 7, appointment_date := "2025-03-10",
    appointment_time := "10:00", complaint := none, status := .scheduled,
    patient := none, doctor := none }

/-- The same appointment after cancellation. -/
def exC7Cancelled : Appointment :=
  { id := 31, patient_id := 1, doctor_id := 7, appointment_date := "2025-03-10",
    appointment_time := "10:00", complaint := none, status := .cancelled,
    patient := none, doctor := none }

/-- The patient of the C8 witness, without a last name. -/
def exC8Patient : Patient :=
  { id := 41, first_name := "Ana", last_name := none, phone := "5550001234", age := some 30 }

/-- The doctor of the C8 witness. -/
def exC8Doctor : Doctor :=
  { id := 7, full_name := "Gregory House", specialty := none }

/-- The appointment of the C8 witness, with joined patient and doctor. -/
def exC8Apt : Appointment :=
  { id := 51, patient_id := 41, doctor_id := 7, appointment_date := "2025-03-11",
    appointment_time := "11:00", complaint := none, status := .scheduled,
    patient := some exC8Patient, doctor := some exC8Doctor }

/-- The six-appointment day of the C10 witness: more than five scheduled
rows for doctor 7 on one date. -/
def exC10Store : List Appointment :=
  [{ id := 61, patient_id := 1, doctor_id := 7, appointment_date := "2025-01-06",
     appointment_time := "08:00", complaint := none, status := .scheduled,
     patient := none, doctor := none },
   { id := 62, patient_id := 2, doctor_id := 7, appointment_date := "2025-01-06",
     appointment_time := "08:30", complaint := none, status := .scheduled,
     patient := none, doctor := none },
   { id := 63, patient_id := 3, doctor_id := 7, appointment_date := "2025-01-06",
     appointment_time := "09:00", complaint := none, status := .scheduled,
     patient := none, doctor := none },
   { id := 64, patient_id := 4, doctor_id := 7, appointment_date := "2025-01-06",
     appointment_time := "09:30", complaint := none, status := .scheduled,
     patient := none, doctor := none },
   { id := 65, patient_id := 5, doctor_id := 7, appointment_date := "2025-01-06",
     appointment_time := "10:00", complaint := none, status := .scheduled,
     patient := none, doctor := none },
   { id := 66, patient_id := 6, doctor_id := 7, appointment_date := "2025-01-06",
     appointment_time := "10:30", complaint := none, status := .scheduled,
     patient := none, doctor := none }]

/-! Sanity checks on concrete inputs. -/

example : timeToMinutes "09:30" = some 570 := by decide

example : timeToMinutes "09:30:00" = some 570 := by decide

example : timeToMinutes "abc" = none := by decide

example : maskPhone "5551234" = "***-***-1234" := by decide

example : maskPhone "123" = "123" := by decide

example : orderBy (fun a b : Nat => decide (a ≤ b)) [3, 1, 2] = [1, 2, 3] := by decide

/-! Helper lemmas, followed by the claim theorems. -/

theorem timeDiffLt30_comm (x y : Option Nat) : timeDiffLt30 x y = timeDiffLt30 y x := by
  cases x <;> cases y <;> simp only [timeDiffLt30]
  rename_i a b
  have : ((a : Int) - b).natAbs = ((b : Int) - a).natAbs := by
    rw [← Int.natAbs_neg ((a : Int) - b), neg_sub]
  rw [this]

theorem timeDiffLt30_eq_true_iff (x y : Option Nat) :
    timeDiffLt30 x y = true ↔
      ∃ a b, x = some a ∧ y = some b ∧ ((a : Int) - b).natAbs < 30 := by
  cases x <;> cases y <;> simp [timeDiffLt30]

theorem checkTimeConflict_eq_true_iff (store : List Appointment) (doctorId : Nat)
    (date time : String) :
    checkTimeConflict store doctorId date time = true ↔
      ∃ apt ∈ store, matchesConflictQuery doctorId date apt = true ∧
        timeDiffLt30 (timeToMinutes time) (timeToMinutes apt.appointment_time) = true := by
  unfold checkTimeConflict
  by_cases h : store.filter (matchesConflictQuery doctorId date) = []
  · simp only [h, List.isEmpty_nil, if_pos]
    constructor
    · intro hfalse; cases hfalse
    · rintro ⟨apt, hmem, hq, hdiff⟩
      have : apt ∈ store.filter (matchesConflictQuery doctorId date) :=
        List.mem_filter.mpr ⟨hmem, hq⟩
      rw [h] at this
      cases this
  · rw [if_neg (by simpa [List.isEmpty_iff] using h)]
    rw [List.any_eq_true]
    constructor
    · rintro ⟨apt, hmem, hdiff⟩
      rcases List.mem_filter.mp hmem with ⟨hmem', hq⟩
      exact ⟨apt, hmem', hq, hdiff⟩
    · rintro ⟨apt, hmem, hq, hdiff⟩
      exact ⟨apt, List.mem_filter.mpr ⟨hmem, hq⟩, hdiff⟩

theorem checkTimeConflict_eq_false_iff (store : List Appointment) (doctorId : Nat)
    (date time : String) :
    checkTimeConflict store doctorId date time = false ↔
      ∀ b ∈ store, matchesConflictQuery doctorId date b = true →
        timeDiffLt30 (timeToMinutes time) (timeToMinutes b.appointment_time) = false := by
  rw [← Bool.not_eq_true, checkTimeConflict_eq_true_iff]
  constructor
  · intro hno b hb hq
    rcases hdiff : timeDiffLt30 (timeToMinutes time) (timeToMinutes b.appointment_time) with _ | _
    · rfl
    · exact absurd ⟨b, hb, hq, hdiff⟩ hno
  · rintro hall ⟨b, hb, hq, hdiff⟩
    rw [hall b hb hq] at hdiff
    cases hdiff

theorem checkTimeConflictEdit_eq_true_iff (store : List Appointment) (doctorId : Nat)
    (date time : String) (currentId : Nat) :
    checkTimeConflictEdit store doctorId date time currentId = true ↔
      ∃ apt ∈ store, matchesConflictQuery doctorId date apt = true ∧ apt.id ≠ currentId ∧
        timeDiffLt30 (timeToMinutes time) (timeToMinutes apt.appointment_time) = true := by
  unfold checkTimeConflictEdit
  by_cases h : store.filter
      (fun apt => matchesConflictQuery doctorId date apt && !(apt.id == currentId)) = []
  · simp only [h, List.isEmpty_nil, if_pos]
    constructor
    · intro hfalse; cases hfalse
    · rintro ⟨apt, hmem, hq, hid, hdiff⟩
      have : apt ∈ store.filter
          (fun apt => matchesConflictQuery doctorId date apt && !(apt.id == currentId)) :=
        List.mem_filter.mpr ⟨hmem, by simp [hq, hid]⟩
      rw [h] at this
      cases this
  · rw [if_neg (by simpa [List.isEmpty_iff] using h)]
    rw [List.any_eq_true]
    constructor
    · rintro ⟨apt, hmem, hdiff⟩
      rcases List.mem_filter.mp hmem with ⟨hmem', hq⟩
      simp only [Bool.and_eq_true, Bool.not_eq_true', beq_eq_false_iff_ne] at hq
      exact ⟨apt, hmem', hq.1, hq.2, hdiff⟩
    · rintro ⟨apt, hmem, hq, hid, hdiff⟩
      exact ⟨apt, List.mem_filter.mpr ⟨hmem, by simp [hq, hid]⟩, hdiff⟩

theorem checkTimeConflictEdit_eq_false_iff (store : List Appointment) (doctorId : Nat)
    (date time : String) (currentId : Nat) :
    checkTimeConflictEdit store doctorId date time currentId = false ↔
      ∀ b ∈ store, matchesConflictQuery doctorId date b = true → b.id ≠ currentId →
        timeDiffLt30 (timeToMinutes time) (timeToMinutes b.appointment_time) = false := by
  rw [← Bool.not_eq_true, checkTimeConflictEdit_eq_true_iff]
  constructor
  · intro hno b hb hq hid
    rcases hdiff : timeDiffLt30 (timeToMinutes time) (timeToMinutes b.appointment_time) with _ | _
    · rfl
    · exact absurd ⟨b, hb, hq, hid, hdiff⟩ hno
  · rintro hall ⟨b, hb, hq, hid, hdiff⟩
    rw [hall b hb hq hid] at hdiff
    cases hdiff

theorem mem_insertSorted {α : Type} (le : α → α → Bool) (a x : α) (l : List α) :
    x ∈ insertSorted le a l ↔ x = a ∨ x ∈ l := by
  induction l with
  | nil => simp [insertSorted]
  | cons b bs ih =>
    simp only [insertSorted]
    split
    · simp [List.mem_cons]
    · simp only [List.mem_cons, ih]
      tauto

theorem mem_orderBy {α : Type} (le : α → α → Bool) (x : α) (l : List α) :
    x ∈ orderBy le l ↔ x ∈ l := by
  induction l with
  | nil => simp [orderBy]
  | cons a as ih =>
    simp only [orderBy, mem_insertSorted, List.mem_cons, ih]

theorem pairwise_insertSorted {α : Type} (le : α → α → Bool)
    (htotal : ∀ a b, (le a b || le b a) = true)
    (htrans : ∀ a b c, le a b = true → le b c = true → le a c = true)
    (a : α) (l : List α) (h : l.Pairwise fun x y => le x y = true) :
    (insertSorted le a l).Pairwise fun x y => le x y = true := by
  induction l with
  | nil => simp [insertSorted]
  | cons b bs ih =>
    rcases List.pairwise_cons.mp h with ⟨hb, hbs⟩
    simp only [insertSorted]
    split
    · rename_i hab
      refine List.pairwise_cons.mpr ⟨?_, h⟩
      intro x hx
      rcases List.mem_cons.mp hx with rfl | hx
      · exact hab
      · exact htrans a b x hab (hb x hx)
    · rename_i hab
      have hba : le b a = true := by
        rcases Bool.or_eq_true_iff.mp (htotal a b) with h' | h'
        · exact absurd h' hab
        · exact h'
      refine List.pairwise_cons.mpr ⟨?_, ih hbs⟩
      intro x hx
      rcases (mem_insertSorted le a x bs).mp hx with rfl | hx
      · exact hba
      · exact hb x hx

theorem pairwise_orderBy {α : Type} (le : α → α → Bool)
    (htotal : ∀ a b, (le a b || le b a) = true)
    (htrans : ∀ a b c, le a b = true → le b c = true → le a c = true)
    (l : List α) :
    (orderBy le l).Pairwise fun x y => le x y = true := by
  induction l with
  | nil => simp [orderBy]
  | cons a as ih => exact pairwise_insertSorted le htotal htrans a (orderBy le as) ih

theorem listCharLe_total (as bs : List Char) : (listCharLe as bs || listCharLe bs as) = true := by
  induction as generalizing bs with
  | nil => simp [listCharLe]
  | cons a as ih =>
    cases bs with
    | nil => simp [listCharLe]
    | cons b bs =>
      simp only [listCharLe]
      rcases Nat.lt_trichotomy a.toNat b.toNat with h | h | h
      · simp [h]
      · have h1 : ¬ a.toNat < b.toNat := by omega
        have h2 : ¬ b.toNat < a.toNat := by omega
        simp only [if_neg h1, if_neg h2]
        exact ih bs
      · simp [h, Nat.lt_asymm h]

theorem listCharLe_trans (as bs cs : List Char) (hab : listCharLe as bs = true)
    (hbc : listCharLe bs cs = true) : listCharLe as cs = true := by
  induction as generalizing bs cs with
  | nil => simp [listCharLe]
  | cons a as ih =>
    cases bs with
    | nil => simp [listCharLe] at hab
    | cons b bs =>
      cases cs with
      | nil => simp [listCharLe] at hbc
      | cons c cs =>
        simp only [listCharLe] at hab hbc ⊢
        rcases Nat.lt_trichotomy a.toNat b.toNat with h1 | h1 | h1
        · rcases Nat.lt_trichotomy b.toNat c.toNat with h2 | h2 | h2
          · simp [show a.toNat < c.toNat by omega]
          · simp [show a.toNat < c.toNat by omega]
          · rw [if_neg (by omega), if_pos h2] at hbc
            exact absurd hbc (by simp)
        · rcases Nat.lt_trichotomy b.toNat c.toNat with h2 | h2 | h2
          · simp [show a.toNat < c.toNat by omega]
          · rw [if_neg (by omega), if_neg (by omega)] at hab
            rw [if_neg (by omega), if_neg (by omega)] at hbc
            rw [if_neg (by omega), if_neg (by omega)]
            exact ih bs cs hab hbc
          · rw [if_neg (by omega), if_pos h2] at hbc
            exact absurd hbc (by simp)
        · rw [if_neg (by omega), if_pos h1] at hab
          exact absurd hab (by simp)

theorem timeLe_total (a b : Appointment) : (timeLe a b || timeLe b a) = true :=
  listCharLe_total _ _

theorem timeLe_trans (a b c : Appointment) (hab : timeLe a b = true)
    (hbc : timeLe b c = true) : timeLe a c = true :=
  listCharLe_trans _ _ _ hab hbc

theorem pairwiseApart_updateStatus (store : List Appointment) (id : Nat)
    (st : AppointmentStatus)
    (hguard : isActiveStatus st = true → ∀ a ∈ store, a.id = id → isActiveStatus a.status = true)
    (h : pairwiseApart isActiveStatus store) :
    pairwiseApart isActiveStatus (updateStatus store id st) := by
  intro a ha b hb hne hdoc hdate hacta hactb
  rcases List.mem_map.mp ha with ⟨oa, hoa, rfl⟩
  rcases List.mem_map.mp hb with ⟨ob, hob, rfl⟩
  by_cases h1 : oa.id == id <;> by_cases h2 : ob.id == id <;>
    simp only [h1, h2, if_pos, if_neg, Bool.not_eq_true] at hne hdoc hdate hacta hactb ⊢
  · exact absurd (by rw [beq_iff_eq.mp h1, beq_iff_eq.mp h2]) hne
  · exact h oa hoa ob hob hne hdoc hdate (hguard hacta oa hoa (beq_iff_eq.mp h1)) hactb
  · exact h oa hoa ob hob hne hdoc hdate hacta (hguard hactb ob hob (beq_iff_eq.mp h2))
  · exact h oa hoa ob hob hne hdoc hdate hacta hactb

theorem pairwiseApart_create (store : List Appointment) (apt : Appointment)
    (hcheck : checkTimeConflict store apt.doctor_id apt.appointment_date
      apt.appointment_time = false)
    (h : pairwiseApart isActiveStatus store) :
    pairwiseApart isActiveStatus (store ++ [apt]) := by
  have hfar := (checkTimeConflict_eq_false_iff store apt.doctor_id apt.appointment_date
    apt.appointment_time).mp hcheck
  intro a ha b hb hne hdoc hdate hacta hactb
  rcases List.mem_append.mp ha with ha | ha
  · rcases List.mem_append.mp hb with hb | hb
    · exact h a ha b hb hne hdoc hdate hacta hactb
    · have hb' : b = apt := by simpa using hb
      rw [hb'] at hdoc hdate hactb ⊢
      rw [timeDiffLt30_comm]
      exact hfar a ha (by simp [matchesConflictQuery, hdoc, hdate, hacta])
  · have ha' : a = apt := by simpa using ha
    rcases List.mem_append.mp hb with hb | hb
    · rw [ha'] at hdoc hdate hacta ⊢
      exact hfar b hb (by simp [matchesConflictQuery, ← hdoc, ← hdate, hactb])
    · have hb' : b = apt := by simpa using hb
      rw [ha', hb'] at hne
      exact absurd rfl hne

theorem pairwiseApart_applyEdit (store : List Appointment) (id doctorId : Nat)
    (date time : String) (st : AppointmentStatus)
    (hcheck : checkTimeConflictEdit store doctorId date time id = false)
    (h : pairwiseApart isActiveStatus store) :
    pairwiseApart isActiveStatus (applyEdit store id doctorId date time st) := by
  have hfar := (checkTimeConflictEdit_eq_false_iff store doctorId date time id).mp hcheck
  intro a ha b hb hne hdoc hdate hacta hactb
  rcases List.mem_map.mp ha with ⟨oa, hoa, rfl⟩
  rcases List.mem_map.mp hb with ⟨ob, hob, rfl⟩
  by_cases h1 : oa.id == id <;> by_cases h2 : ob.id == id <;>
    simp only [h1, h2, if_pos, if_neg, Bool.not_eq_true] at hne hdoc hdate hacta hactb ⊢
  · exact absurd (by rw [beq_iff_eq.mp h1, beq_iff_eq.mp h2]) hne
  · exact hfar ob hob
      (by simp [matchesConflictQuery, ← hdoc, ← hdate, hactb])
      (by simpa using h2)
  · rw [timeDiffLt30_comm]
    exact hfar oa hoa
      (by simp [matchesConflictQuery, hdoc, hdate, hacta])
      (by simpa using h1)
  · exact h oa hoa ob hob hne hdoc hdate hacta hactb

/-- Claim C1: for every doctor and date, checkTimeConflict returns a
conflict exactly when some stored appointment of that doctor on that date
with status scheduled or in_consultation has a time in minutes whose
absolute difference from the candidate time is strictly below 30; in
particular no conflict is returned when every such difference is at least
30 minutes or no such appointment exists. -/
theorem claim_C1 (store : List Appointment) (doctorId : Nat) (date time : String) :
    checkTimeConflict store doctorId date time = true ↔
      ∃ apt ∈ store, matchesConflictQuery doctorId date apt = true ∧
        ∃ m n, timeToMinutes apt.appointment_time = some m ∧ timeToMinutes time = some n ∧
          ((m : Int) - n).natAbs < 30 := by
  rw [checkTimeConflict_eq_true_iff]
  constructor
  · rintro ⟨apt, hmem, hq, hdiff⟩
    rcases (timeDiffLt30_eq_true_iff _ _).mp hdiff with ⟨n, m, hn, hm, hlt⟩
    refine ⟨apt, hmem, hq, m, n, hm, hn, ?_⟩
    rw [show ((m : Int) - n).natAbs = ((n : Int) - m).natAbs by
      rw [← Int.natAbs_neg, neg_sub]]
    exact hlt
  · rintro ⟨apt, hmem, hq, m, n, hm, hn, hlt⟩
    refine ⟨apt, hmem, hq, (timeDiffLt30_eq_true_iff _ _).mpr ⟨n, m, hn, hm, ?_⟩⟩
    rw [show ((n : Int) - m).natAbs = ((m : Int) - n).natAbs by
      rw [← Int.natAbs_neg, neg_sub]]
    exact hlt

/-- Claim C3 counterexample: with active appointments at 09:00 and 09:20,
the claim asserts a 09:35 booking is accepted, but the checker reports a
conflict for it, since 09:35 lies only 15 minutes after 09:20. -/
theorem claim_C3_counterexample :
    checkTimeConflict exStoreC3 7 "2025-01-06" "09:35" = true := by decide

/-- Claim C3 as amended: with active appointments at 09:00 and 09:20, a
third booking at 09:15 is rejected, one at 09:35 is also rejected (it is
within 30 minutes of 09:20), and one at 09:50 is accepted. -/
theorem claim_C3 :
    checkTimeConflict exStoreC3 7 "2025-01-06" "09:15" = true ∧
    checkTimeConflict exStoreC3 7 "2025-01-06" "09:35" = true ∧
    checkTimeConflict exStoreC3 7 "2025-01-06" "09:50" = false := by decide

/-- Claim C4: the edit conflict check never reports a conflict caused by
the appointment being edited itself: when every other stored appointment
matching the doctor, date and active-status query lies at least 30 minutes
away, re-saving the appointment with its own unchanged doctor, date and
time reports no conflict, even though its distance to itself is zero. -/
theorem claim_C4 (store : List Appointment) (apt : Appointment) (_hmem : apt ∈ store)
    (hothers : ∀ b ∈ store, b.id ≠ apt.id →
      matchesConflictQuery apt.doctor_id apt.appointment_date b = true →
      timeDiffLt30 (timeToMinutes apt.appointment_time)
        (timeToMinutes b.appointment_time) = false) :
    checkTimeConflictEdit store apt.doctor_id apt.appointment_date
      apt.appointment_time apt.id = false := by
  rw [checkTimeConflictEdit_eq_false_iff]
  intro b hb hq hid
  exact hothers b hb hid hq

/-- Claim C4 witness: a store holding only the edited appointment itself;
the appointment is zero minutes from itself, yet re-saving it reports no
conflict. -/
theorem claim_C4_witness :
    timeDiffLt30 (timeToMinutes exSoloApt.appointment_time)
      (timeToMinutes exSoloApt.appointment_time) = true ∧
    checkTimeConflictEdit [exSoloApt] exSoloApt.doctor_id exSoloApt.appointment_date
      exSoloApt.appointment_time exSoloApt.id = false :=
  ⟨by decide, claim_C4 [exSoloApt] exSoloApt (by simp) (by decide)⟩

/-- Claim C5 counterexample: with no appointment in consultation, the
start action is enabled (not disabled) for every listed appointment, so it
is enabled for the later appointment as well, not only for the oldest: in
the two-element queue both rows are listed while the shared disabled flag
is false, although the first row strictly precedes the second in time. -/
theorem claim_C5_counterexample :
    startButtonDisabled exQueue = false ∧
    exQueueA ∈ (organizeAppointments exQueue).nextAppointments ∧
    exQueueB ∈ (organizeAppointments exQueue).nextAppointments ∧
    exQueueA ≠ exQueueB ∧
    timeLe exQueueA exQueueB = true ∧
    exQueueA.appointment_time ≠ exQueueB.appointment_time := by decide

/-- Claim C5 as amended: the start action carries one shared disabled
flag: it is disabled for every listed appointment exactly when some
fetched appointment is in consultation, and hence enabled for every
listed appointment, not only the oldest, when none is. -/
theorem claim_C5 (appointments : List Appointment) :
    startButtonDisabled appointments = true ↔
      ∃ a ∈ appointments, a.status = .in_consultation := by
  unfold startButtonDisabled organizeAppointments
  simp only []
  rw [List.find?_isSome]
  constructor
  · rintro ⟨a, ha, hp⟩
    exact ⟨a, ha, beq_iff_eq.mp hp⟩
  · rintro ⟨a, ha, hp⟩
    exact ⟨a, ha, beq_iff_eq.mpr hp⟩

/-- The C2 scenario store is reachable through the application writes. -/
theorem exC2Store_reachable : Reachable exC2Store :=
  Reachable.create exC2Store3 exC2Apt2
    (Reachable.complete exC2Store2 1
      (Reachable.start exC2Store1 1
        (Reachable.create [] exC2Apt1 Reachable.empty (by decide) rfl (by decide))
        (by decide)))
    (by decide) rfl (by decide)

/-- Claim C2 counterexample: a reachable store holding a completed
appointment at 09:00 and a scheduled one at 09:10 of the same doctor and
date; both statuses are neither cancelled nor no_show, yet the rows lie
ten minutes apart, so the claimed invariant over all non-cancelled,
non-no-show appointments fails on reachable stores. -/
theorem claim_C2_counterexample :
    Reachable exC2Store ∧ ¬ pairwiseApart notClosedStatus exC2Store :=
  ⟨exC2Store_reachable, by unfold pairwiseApart; decide⟩

/-- Claim C2 as amended: every reachable appointment store satisfies the
invariant restricted to the statuses the write-time check inspects: no
two appointments with status scheduled or in_consultation exist for the
same doctor on the same date with times under 30 minutes apart.  The
broader form covering completed appointments fails, because the conflict
check does not fetch completed rows. -/
theorem claim_C2 (store : List Appointment) (h : Reachable store) :
    pairwiseApart isActiveStatus store := by
  induction h with
  | empty => intro a ha; cases ha
  | create store apt _hr _hfresh _hstatus hcheck ih =>
    exact pairwiseApart_create store apt hcheck ih
  | edit store id doctorId date time st _hr hcheck ih =>
    exact pairwiseApart_applyEdit store id doctorId date time st hcheck ih
  | start store id _hr hguard ih =>
    exact pairwiseApart_updateStatus store id .in_consultation
      (fun _ a ha hid => by rw [hguard a ha hid]; rfl) ih
  | complete store id _hr ih =>
    exact pairwiseApart_updateStatus store id .completed
      (fun hact => absurd hact (by decide)) ih
  | cancel store id _hr ih =>
    exact pairwiseApart_updateStatus store id .cancelled
      (fun hact => absurd hact (by decide)) ih
  | noShow store id _hr ih =>
    exact pairwiseApart_updateStatus store id .no_show
      (fun hact => absurd hact (by decide)) ih

/-- Claim C2 witness: the amended invariant evaluated on the concrete
reachable C2 scenario store. -/
theorem claim_C2_witness :
    Reachable exC2Store ∧ pairwiseApart isActiveStatus exC2Store :=
  ⟨exC2Store_reachable, claim_C2 exC2Store exC2Store_reachable⟩

/-- Claim C6: with a current in-consultation appointment on the doctor
dashboard, completing the consultation sets every stored row carrying its
id to completed, and after the re-fetch and reorganisation the current
patient slot can only be occupied again if some other stored appointment
was already in consultation. -/
theorem claim_C6 (store : List Appointment) (doctorId : Nat) (searchDate : String)
    (apt : Appointment)
    (_hcur : (organizeAppointments
      (fetchDoctorAppointments store doctorId searchDate)).currentAppointment = some apt) :
    (∀ a ∈ handleCompleteConsultation store (some apt),
      a.id = apt.id → a.status = .completed) ∧
    (∀ b, (organizeAppointments (fetchDoctorAppointments
          (handleCompleteConsultation store (some apt)) doctorId searchDate)).currentAppointment
        = some b →
      ∃ c ∈ store, c.id ≠ apt.id ∧ c.status = .in_consultation) := by
  constructor
  · intro a ha hid
    rcases List.mem_map.mp ha with ⟨o, ho, rfl⟩
    by_cases h : o.id == apt.id
    · simp [h]
    · rw [if_neg h] at hid ⊢
      exact absurd (beq_iff_eq.mpr hid) h
  · intro b hb
    have hb' : (fetchDoctorAppointments (handleCompleteConsultation store (some apt))
        doctorId searchDate).find? (fun a => a.status == .in_consultation) = some b := hb
    have hfind := List.find?_some hb'
    have hbstatus : b.status = .in_consultation := beq_iff_eq.mp hfind
    have hbmem : b ∈ fetchDoctorAppointments (handleCompleteConsultation store (some apt))
        doctorId searchDate := List.mem_of_find?_eq_some hb'
    have hbmem' : b ∈ handleCompleteConsultation store (some apt) :=
      (List.mem_filter.mp ((mem_orderBy _ _ _).mp hbmem)).1
    rcases List.mem_map.mp hbmem' with ⟨o, ho, rfl⟩
    by_cases h : o.id == apt.id
    · rw [if_pos h] at hbstatus
      cases hbstatus
    · rw [if_neg h] at hbstatus
      exact ⟨o, ho, by simpa using h, hbstatus⟩

/-- Claim C6 witness: a one-element day with an in-consultation
appointment; completing it leaves its row completed. -/
theorem claim_C6_witness :
    exC6Done ∈ handleCompleteConsultation [exC6Apt] (some exC6Apt) ∧
    exC6Done.status = .completed :=
  ⟨by decide,
    (claim_C6 [exC6Apt] 7 "2025-01-06" exC6Apt (by decide)).1 exC6Done (by decide) rfl⟩

/-- Claim C7 counterexample: cancelling the only stored appointment keeps
it, now with status cancelled, inside the nurse dashboard list for its
date under the all-doctors filter and an empty search, so cancellation
does not remove the appointment from the nurse-facing list view. -/
theorem claim_C7_counterexample :
    exC7Cancelled.status = .cancelled ∧
    exC7Cancelled ∈ filterAppointments
      (fetchNurseAppointments (handleCancel [exC7Apt] exC7Apt.id))
      none "2025-03-10" "" := by
  constructor
  · rfl
  · decide

/-- Claim C7 as amended: cancelling an appointment changes only its
status field to cancelled, leaves every record in the underlying store
(rows with other ids are untouched and no row is deleted), and the
cancelled appointment still appears in the nurse-facing list view for its
date, since that view does not filter on status.  It does disappear from
the doctor dashboard fetch, whose status filter excludes cancelled. -/
theorem claim_C7 (store : List Appointment) (apt : Appointment) (selectedDate : String)
    (hmem : apt ∈ store) (hdate : apt.appointment_date = selectedDate) :
    (handleCancel store apt.id).length = store.length ∧
    (∀ b ∈ store, b.id ≠ apt.id → b ∈ handleCancel store apt.id) ∧
    { apt with status := .cancelled } ∈ handleCancel store apt.id ∧
    { apt with status := .cancelled } ∈
      filterAppointments (fetchNurseAppointments (handleCancel store apt.id))
        none selectedDate "" ∧
    (∀ doctorId searchDate,
      { apt with status := .cancelled } ∉
        fetchDoctorAppointments (handleCancel store apt.id) doctorId searchDate) := by
  have hcanc : { apt with status := .cancelled } ∈ handleCancel store apt.id :=
    List.mem_map.mpr ⟨apt, hmem, by simp⟩
  refine ⟨?_, ?_, hcanc, ?_, ?_⟩
  · simp [handleCancel, updateStatus]
  · intro b hb hbne
    refine List.mem_map.mpr ⟨b, hb, ?_⟩
    rw [if_neg (by simpa using hbne)]
  · have h2 : { apt with status := .cancelled } ∈
        fetchNurseAppointments (handleCancel store apt.id) :=
      (mem_orderBy _ _ _).mpr hcanc
    unfold filterAppointments
    rw [if_pos (by decide)]
    exact List.mem_filter.mpr ⟨h2, by simp [hdate]⟩
  · intro doctorId searchDate hin
    have := (List.mem_filter.mp ((mem_orderBy _ _ _).mp hin)).2
    simp [doctorDayStatus] at this

/-- Claim C7 witness: the amended statement evaluated on the one-element
C7 store. -/
theorem claim_C7_witness :
    (handleCancel [exC7Apt] exC7Apt.id).length = 1 ∧
    exC7Cancelled ∈ filterAppointments
      (fetchNurseAppointments (handleCancel [exC7Apt] exC7Apt.id))
      none "2025-03-10" "" ∧
    exC7Cancelled ∉ fetchDoctorAppointments (handleCancel [exC7Apt] exC7Apt.id) 7 "2025-03-10" :=
  have h := claim_C7 [exC7Apt] exC7Apt "2025-03-10" (by simp) rfl
  ⟨h.1, h.2.2.2.1, h.2.2.2.2 7 "2025-03-10"⟩

/-- Claim C8: with a joined patient and doctor, the reschedule handler
issues exactly one POST request to the fixed webhook endpoint whose
payload carries the five fields of the payload type, with the patient
last name defaulting to the empty string when absent, and the operation
fails exactly when the response status is not 2xx or the request throws
(modelled by a response of none). -/
theorem claim_C8 (apt : Appointment) (p : Patient) (d : Doctor) (response : Option Nat)
    (hp : apt.patient = some p) (hd : apt.doctor = some d) :
    (handleRequestReschedule apt response).1 =
      [{ url := rescheduleWebhookUrl, method := "POST",
         payload :=
           { doctor_name := d.full_name
             patient_first_name := p.first_name
             patient_last_name := p.last_name.getD ""
             appointment_date := apt.appointment_date
             appointment_time := apt.appointment_time } }] ∧
    (p.last_name = none →
      ∀ r ∈ (handleRequestReschedule apt response).1, r.payload.patient_last_name = "") ∧
    ((handleRequestReschedule apt response).2 = false ↔
      response = none ∨ ∃ s, response = some s ∧ responseOk s = false) := by
  unfold handleRequestReschedule
  rw [hp, hd]
  refine ⟨rfl, ?_, ?_⟩
  · intro hnone r hr
    rcases List.mem_singleton.mp hr with rfl
    simp [hnone]
  · cases response with
    | none => simp
    | some s =>
      simp only []
      constructor
      · intro h
        exact Or.inr ⟨s, rfl, h⟩
      · rintro (h | ⟨s', hs', h⟩)
        · cases h
        · cases hs'
          exact h

/-- Claim C8 witness: the handler evaluated on a concrete appointment and
a 500 response: one request to the fixed endpoint with the defaulted
empty last name, and the operation fails. -/
theorem claim_C8_witness :
    (handleRequestReschedule exC8Apt (some 500)).1 =
      [{ url := rescheduleWebhookUrl, method := "POST",
         payload :=
           { doctor_name := "Gregory House", patient_first_name := "Ana",
             patient_last_name := "", appointment_date := "2025-03-11",
             appointment_time := "11:00" } }] ∧
    (handleRequestReschedule exC8Apt (some 500)).2 = false :=
  have h := claim_C8 exC8Apt exC8Patient exC8Doctor (some 500) rfl rfl
  ⟨h.1, h.2.2.mpr (Or.inr ⟨500, rfl, by decide⟩)⟩

/-- Claim C9: the queue masks patient phone numbers: a phone string of at
least four characters is rendered as the fixed mask followed by exactly
its last four characters, and a shorter or empty phone string is rendered
unchanged. -/
theorem claim_C9 (phone : String) :
    (4 ≤ phone.data.length →
      (maskPhone phone).data =
        '*' :: '*' :: '*' :: '-' :: '*' :: '*' :: '*' :: '-' ::
          phone.data.drop (phone.data.length - 4) ∧
      (phone.data.drop (phone.data.length - 4)).length = 4) ∧
    (phone.data.length < 4 → maskPhone phone = phone) := by
  constructor
  · intro h4
    have h1 : phone.data.isEmpty = false := by
      cases hdata : phone.data with
      | nil => rw [hdata] at h4; simp at h4
      | cons c cs => rfl
    have h2 : decide (phone.data.length < 4) = false := decide_eq_false (by omega)
    unfold maskPhone
    rw [if_neg (by rw [h1, h2]; simp)]
    constructor
    · rw [String.data_append]
      rfl
    · rw [List.length_drop]
      omega
  · intro h4
    have h2 : decide (phone.data.length < 4) = true := decide_eq_true h4
    unfold maskPhone
    rw [if_pos (by rw [h2, Bool.or_true])]

/-- Claim C9 witness: the mask evaluated on a seven-character phone and a
three-character phone. -/
theorem claim_C9_witness :
    (maskPhone "5551234").data =
      '*' :: '*' :: '*' :: '-' :: '*' :: '*' :: '*' :: '-' ::
        "5551234".data.drop ("5551234".data.length - 4) ∧
    maskPhone "123" = "123" :=
  ⟨((claim_C9 "5551234").1 (by decide)).1, (claim_C9 "123").2 (by decide)⟩

/-- Claim C10: the next-patients list the doctor dashboard renders, whose
length is also the waiting count, holds at most five appointments, all
with status scheduled, in ascending time order, and they are the earliest
ones: every fetched scheduled appointment left out comes no earlier than
any listed one. -/
theorem claim_C10 (store : List Appointment) (doctorId : Nat) (searchDate : String) :
    ((organizeAppointments (fetchDoctorAppointments store doctorId
        searchDate)).nextAppointments).length ≤ 5 ∧
    (∀ a ∈ (organizeAppointments (fetchDoctorAppointments store doctorId
        searchDate)).nextAppointments, a.status = .scheduled) ∧
    ((organizeAppointments (fetchDoctorAppointments store doctorId
        searchDate)).nextAppointments).Pairwise (fun a b => timeLe a b = true) ∧
    (∀ b ∈ fetchDoctorAppointments store doctorId searchDate, b.status = .scheduled →
      b ∉ (organizeAppointments (fetchDoctorAppointments store doctorId
        searchDate)).nextAppointments →
      ∀ a ∈ (organizeAppointments (fetchDoctorAppointments store doctorId
        searchDate)).nextAppointments, timeLe a b = true) := by
  have hsorted : (fetchDoctorAppointments store doctorId searchDate).Pairwise
      (fun a b => timeLe a b = true) :=
    pairwise_orderBy timeLe timeLe_total timeLe_trans _
  have hfsorted : ((fetchDoctorAppointments store doctorId searchDate).filter
      fun apt => apt.status == .scheduled).Pairwise (fun a b => timeLe a b = true) :=
    hsorted.filter _
  refine ⟨?_, ?_, ?_, ?_⟩
  · simp only [organizeAppointments, List.length_take]
    omega
  · intro a ha
    have ha' : a ∈ (fetchDoctorAppointments store doctorId searchDate).filter
        fun apt => apt.status == .scheduled := List.mem_of_mem_take ha
    exact beq_iff_eq.mp (List.mem_filter.mp ha').2
  · exact hfsorted.sublist (List.take_sublist 5 _)
  · intro b hb hbs hbn a ha
    have hbf : b ∈ (fetchDoctorAppointments store doctorId searchDate).filter
        fun apt => apt.status == .scheduled :=
      List.mem_filter.mpr ⟨hb, by simp [hbs]⟩
    have hsplit := List.take_append_drop 5 ((fetchDoctorAppointments store doctorId
      searchDate).filter fun apt => apt.status == .scheduled)
    rw [← hsplit] at hbf hfsorted
    rcases List.mem_append.mp hbf with h | h
    · exact absurd h hbn
    · exact (List.pairwise_append.mp hfsorted).2.2 a ha b h

/-- Claim C10 witness: six scheduled appointments are stored, yet the
rendered next-patients list caps at five rows in ascending time order. -/
theorem claim_C10_witness :
    ((organizeAppointments (fetchDoctorAppointments exC10Store 7
        "2025-01-06")).nextAppointments).length ≤ 5 ∧
    ((organizeAppointments (fetchDoctorAppointments exC10Store 7
        "2025-01-06")).nextAppointments).Pairwise (fun a b => timeLe a b = true) ∧
    exC10Store.length = 6 :=
  have h := claim_C10 exC10Store 7 "2025-01-06"
  ⟨h.1, h.2.2.1, rfl⟩
